import Mathlib

/-!
Verification development for the facial-recognition attendance mobile
client (Win-Win-Tech/GenAI_apk). The definitions below are a shallow
embedding of the code the claims touch: the persisted auth blob and its
accessors (utils/session.ts), the axios request/response interceptors
(src/api/httpClient.ts), the failure-toast mapping and the auto-capture
loop of the attendance screen (src/pages/AttendanceScreen.tsx), the
manual capture handler of the older attendance screen, and the toast
list helpers. Timestamps are modelled as natural-number milliseconds;
device storage as a partial map from string keys to stored blobs.
-/

namespace Session

/-- The persisted auth record (utils/session.ts, interface AuthData).
In the source, location_id may be a string or a number. The TS index
signature for extra keys is not touched by any accessor logic and is
omitted. -/
structure AuthData where
  token : Option String
  name : Option String
  email : Option String
  role : Option String
  location_id : Option (String ⊕ Nat)
  location : Option String
deriving DecidableEq

/-- A device-storage value under a string key: either a well-formed JSON
serialization of an auth record (as produced by the external JSON
encoder, always a non-empty string) or a raw string that is not valid
JSON. -/
inductive Blob where
  | json (a : AuthData)
  | malformed (raw : String)
deriving DecidableEq

/-- Device storage (AsyncStorage): a partial map from string keys to
stored blobs. -/
def Store := String → Option Blob

/-- AsyncStorage.getItem. -/
def getItem (st : Store) (k : String) : Option Blob := st k

/-- AsyncStorage.setItem. -/
def setItem (k : String) (v : Blob) (st : Store) : Store :=
  fun q => if q = k then some v else st q

/-- AsyncStorage.removeItem. -/
def removeItem (k : String) (st : Store) : Store :=
  fun q => if q = k then none else st q

/-- config/apiConfig.ts: the single storage key for the auth blob. -/
def AUTH_STORAGE_KEY : String := "trueface_auth"

/-- utils/session.ts: legacy keys scanned by getAuthData; the list holds
exactly the active storage key itself. -/
def LEGACY_AUTH_KEYS : List String := ["trueface_auth"]

/-- JS truthiness of the raw string read from storage: getItem yields
null (none here) or the stored string, and the empty string is falsy. A
stored JSON serialization of an object is never empty, hence always
truthy. -/
def blobTruthy : Blob → Bool
  | .json _ => true
  | .malformed raw => raw != ""

/-- The external JSON codec, abstracted: parsing a well-formed
serialization recovers the record; parsing a malformed string throws,
modelled as none. -/
def jsonParse : Blob → Option AuthData
  | .json a => some a
  | .malformed _ => none

/-- JSON.stringify on an auth record always yields a well-formed
serialization of that record. -/
def jsonStringify (a : AuthData) : Blob := .json a

/-- utils/session.ts setAuthData: a null argument removes the active key
and every legacy key; otherwise the record is serialized under the
active key and legacy keys other than the active key are removed (the
loop skips a legacy key equal to AUTH_STORAGE_KEY). -/
def setAuthData (auth : Option AuthData) (st : Store) : Store :=
  match auth with
  | none =>
    LEGACY_AUTH_KEYS.foldl (fun s k => removeItem k s) (removeItem AUTH_STORAGE_KEY st)
  | some a =>
    LEGACY_AUTH_KEYS.foldl
      (fun s k => if k = AUTH_STORAGE_KEY then s else removeItem k s)
      (setItem AUTH_STORAGE_KEY (jsonStringify a) st)

/-- utils/session.ts getAuthData, returning the parsed record (or null)
together with the possibly-updated store. The legacy-key loop iterates
over LEGACY_AUTH_KEYS = ["trueface_auth"], which is the active storage
key itself; the loop is entered only when that key holds nothing truthy,
so the re-read inside the loop is falsy again and the truthy branch of
the loop body is dead code, collapsed here. The try/catch around
JSON.parse maps a malformed (truthy) blob to removal of the active key
plus a null result; a falsy raw value returns null without touching the
store. -/
def getAuthData (st : Store) : Option AuthData × Store :=
  match getItem st AUTH_STORAGE_KEY with
  | none => (none, st)
  | some raw =>
    if blobTruthy raw then
      match jsonParse raw with
      | some a => (some a, st)
      | none => (none, removeItem AUTH_STORAGE_KEY st)
    else
      (none, st)

/-- utils/session.ts clearAuthData: removes the active key and every
legacy key. -/
def clearAuthData (st : Store) : Store :=
  LEGACY_AUTH_KEYS.foldl (fun s k => removeItem k s) (removeItem AUTH_STORAGE_KEY st)

/-- Boolean(auth?.token): the record is present and its token is a
non-empty string. -/
def tokenTruthy : Option AuthData → Bool
  | none => false
  | some a =>
    match a.token with
    | none => false
    | some t => t != ""

/-- utils/session.ts isAuthenticated. -/
def isAuthenticated (st : Store) : Bool :=
  tokenTruthy (getAuthData st).1

end Session

namespace HttpC

/-- Request headers: a partial map from header names (case-sensitive JS
object properties) to string values. -/
def Headers := String → Option String

/-- The empty headers object created when config.headers is absent. -/
def emptyHeaders : Headers := fun _ => none

/-- Assignment of one header key. -/
def setHeader (k v : String) (h : Headers) : Headers :=
  fun q => if q = k then some v else h q

/-- JS truthiness of a header value: present and non-empty. -/
def headerTruthy (h : Headers) (k : String) : Bool :=
  match h k with
  | none => false
  | some v => v != ""

/-- api/httpClient.ts request interceptor (lines 19-43): when a truthy
persisted token exists, ensure both the "Authorization" and the
"authorization" keys carry "Token " followed by the token; when both are
absent (or falsy), both are set to that value; when one is already
truthy, the other is mirrored from it. Without a truthy token the config
headers are returned untouched. -/
def requestInterceptor (authToken : Option String) (headers : Option Headers) :
    Option Headers :=
  let tokTruthy := match authToken with
    | none => false
    | some t => t != ""
  if tokTruthy then
    let t := match authToken with
      | none => ""
      | some t => t
    let h := match headers with
      | none => emptyHeaders
      | some h => h
    let tokenValue := "Token " ++ t
    if !headerTruthy h "Authorization" && !headerTruthy h "authorization" then
      some (setHeader "authorization" tokenValue (setHeader "Authorization" tokenValue h))
    else
      let h1 := if !headerTruthy h "Authorization" && headerTruthy h "authorization" then
          setHeader "Authorization" ((h "authorization").getD "") h
        else h
      let h2 := if !headerTruthy h1 "authorization" && headerTruthy h1 "Authorization" then
          setHeader "authorization" ((h1 "Authorization").getD "") h1
        else h1
      some h2
  else headers

/-- The response attached to a rejected axios error, when the server
answered at all. -/
structure ErrResponse where
  status : Nat
deriving DecidableEq

/-- A rejected axios error: response is none for network-level
failures. -/
structure HttpError where
  response : Option ErrResponse
deriving DecidableEq

/-- Outcome of the response error interceptor: the updated device store,
whether the registered logout callback was invoked, and the settled
promise, which is always a rejection carrying the original error. -/
structure ErrorOutcome where
  store : Session.Store
  calledLogout : Bool
  result : Except HttpError Unit

/-- api/httpClient.ts response interceptor, error arm (lines 51-73): on
status 401 or 403 the auth blob is cleared and the logout callback (when
registered) invoked; every error is re-rejected unchanged. -/
def onResponseError (hasLogoutCallback : Bool) (e : HttpError) (st : Session.Store) :
    ErrorOutcome :=
  let isAuthError := match e.response with
    | some r => r.status == 401 || r.status == 403
    | none => false
  if isAuthError then
    { store := Session.clearAuthData st
      calledLogout := hasLogoutCallback
      result := .error e }
  else
    { store := st
      calledLogout := false
      result := .error e }

end HttpC

namespace ErrMap

/-- A JSON value inside an error response body: the backend error
payloads are objects whose field values are strings or arrays of
strings (DRF style). -/
inductive JVal where
  | s (v : String)
  | arr (vs : List String)
deriving DecidableEq

/-- JS truthiness of a field value: the empty string is falsy; arrays,
even empty ones, are truthy. -/
def jvalTruthy : JVal → Bool
  | .s v => v != ""
  | .arr _ => true

/-- JS template-literal stringification of a field value: arrays render
as their elements joined with commas. -/
def jvalToText : JVal → String
  | .s v => v
  | .arr vs => String.intercalate "," vs

/-- error.response?.data for a failed attendance submission: absent for
a network failure, otherwise an object given as its key/value fields in
insertion order. -/
structure AttendanceError where
  data? : Option (List (String × JVal))

/-- First-field fallback of the catch branch (AttendanceScreen lines
393-401): the message becomes the first field value, the first element
for array values; indexing into an empty array yields the JS text
"undefined". With no fields the default message stands. -/
def firstFieldMsg : List (String × JVal) → String
  | [] => "Server connection failed"
  | (_, v) :: _ =>
    match v with
    | .s w => w
    | .arr [] => "undefined"
    | .arr (w :: _) => w

/-- AttendanceScreen captureAndSend catch branch (lines 375-403): the
toast text shown on a failed submission, mirroring the switch on the
truthy error.response.data.error value and the first-field fallback.
The toast string is the title followed by ": " and the message. -/
def failureToast (e : AttendanceError) : String :=
  match e.data? with
  | none => "Connection Error: Server connection failed"
  | some kvs =>
    match kvs.lookup "error" with
    | some v =>
      if jvalTruthy v then
        if v = JVal.s "No face detected" then
          "No Face Found: Please ensure your face is clearly visible in the frame"
        else if v = JVal.s "Face not recognized" then
          "Unregistered Face: Your face is not registered in the system. Please contact administrator."
        else
          "Error: " ++ jvalToText v
      else "Connection Error: " ++ firstFieldMsg kvs
    | none => "Connection Error: " ++ firstFieldMsg kvs

end ErrMap

namespace FormD

/-- A multipart form entry: a file part (uri, MIME type, filename) or a
plain string field. -/
inductive Entry where
  | file (uri mime filename : String)
  | field (value : String)
deriving DecidableEq

/-- attendanceApi.ts markAttendance: the POST target of an attendance
submission. -/
def attendancePath : String := "/attendance/"

/-- AttendanceScreen captureAndSend (lines 311-322): the multipart form
built once geolocation is available. The latitude and longitude values
are the toFixed(6) renderings and accuracy the rounded value; they are
passed in as opaque strings because floating-point formatting is
external to the claims, which concern only the fields attached. -/
def captureAndSendForm (photoUri latS lonS accS : String) : List (String × Entry) :=
  [("image", Entry.file photoUri "image/jpeg" "face.jpg"),
   ("latitude", Entry.field latS),
   ("longitude", Entry.field lonS),
   ("accuracy", Entry.field accS)]

/-- Manual attendance screen handleCapture (part_000 lines 144-149): the
multipart form submitted there carries only the image part. -/
def handleCaptureForm (photoUri : String) : List (String × Entry) :=
  [("image", Entry.file photoUri "image/jpeg" "attendance.jpg")]

end FormD

namespace Toasts

/-- Toast severity. -/
inductive TType where
  | success
  | error
  | info
deriving DecidableEq

/-- AttendanceScreen ToastMessage, restricted to the fields the claims
touch (confidence and location are further optional payload fields with
no behavioural role in showToast/removeToast). -/
structure ToastMessage where
  id : String
  message : String
  ttype : TType
  employee : Option String
  checkin : Option String
  checkout : Option String
deriving DecidableEq

/-- Toast-related component state: the in-flight toast list and the
keyed rate-limit map lastToastTimeRef. -/
structure ToastState where
  toasts : List ToastMessage
  lastToastTime : List (String × Nat)

/-- Result of a showToast call: the updated state and the removal timer
scheduled for the added toast, as a pair of the toast id and the delay
in milliseconds; none when the rate-limit gate swallowed the call. -/
structure ShowResult where
  state : ToastState
  timer : Option (String × Nat)

/-- The fixed auto-expiry delay of AttendanceScreen showToast. -/
def TOAST_TTL_MS : Nat := 5000

/-- Assignment lastToastTimeRef.current[key] = now on a JS object,
modelled on the association list. -/
def updateKey (k : String) (v : Nat) (m : List (String × Nat)) : List (String × Nat) :=
  (k, v) :: m.filter (fun p => p.1 != k)

/-- Rate-limit gate of showToast: a keyed call is swallowed when the
key was last shown strictly less than 3000 ms ago (a recorded time of 0
is falsy in JS and does not gate). -/
def rateLimited (now : Nat) (key : Option String) (m : List (String × Nat)) : Bool :=
  match key with
  | some k =>
    match m.lookup k with
    | some prev => prev != 0 && decide (now - prev < 3000)
    | none => false
  | none => false

/-- AttendanceScreen showToast (lines 202-222): an optional key
rate-limits repeats within 3000 ms; when a toast is added, its id is the
current timestamp rendered as a string and its removal is scheduled
TOAST_TTL_MS = 5000 ms out. -/
def showToast (now : Nat) (message : String) (ttype : TType)
    (employee checkin checkout : Option String) (key : Option String)
    (st : ToastState) : ShowResult :=
  if rateLimited now key st.lastToastTime then { state := st, timer := none }
  else
    let lt := match key with
      | some k => updateKey k now st.lastToastTime
      | none => st.lastToastTime
    let newToast : ToastMessage :=
      { id := toString now, message := message, ttype := ttype
        employee := employee, checkin := checkin, checkout := checkout }
    { state := { toasts := st.toasts ++ [newToast], lastToastTime := lt }
      timer := some (newToast.id, TOAST_TTL_MS) }

/-- AttendanceScreen removeToast (lines 224-226): keeps exactly the
toasts whose id differs. -/
def removeToast (id : String) (l : List ToastMessage) : List ToastMessage :=
  l.filter (fun t => t.id != id)

end Toasts

namespace AutoLoop

/-- Progress of a captureAndSend run. -/
inductive Phase where
  | idle
  | capturing
  | posting
deriving DecidableEq

/-- State of the auto-capture loop of AttendanceScreen: the wall clock,
the two cooldown references, the processing flag, whether the camera is
active, the pending 2 s stability timeout (as its scheduled fire time),
the progress of the running captureAndSend, the start times of
auto-initiated captureAndSend runs (most recent first), and bookkeeping
of attendance POSTs (total issued and currently outstanding). The
sinceRetry field is ghost history: the auto-capture start times recorded
since the last manual retry (most recent first); a capture appends to
both starts and sinceRetry, and handleRetry clears only sinceRetry. -/
structure St where
  now : Nat
  lastCaptureTime : Nat
  nextAllowedCaptureAt : Nat
  processing : Bool
  cameraActive : Bool
  pending : Option Nat
  phase : Phase
  starts : List Nat
  posted : Nat
  inFlight : Nat
  sinceRetry : List Nat
deriving DecidableEq

/-- Events of the loop, each an atomic run-to-completion segment of the
single-threaded event loop. -/
inductive Ev where
  | advance (d : Nat)
  | tick (detected : Bool)
  | fire (still : Bool)
  | geoFail
  | photoFail
  | post
  | respOk
  | respUnknown
  | respErr
  | captureErr
  | retry
deriving DecidableEq

/-- The 10 second cooldown between captures (AttendanceScreen line
479). -/
def cooldownMs : Nat := 10000

/-- detectInterval callback (AttendanceScreen lines 467-526): runs only
while the camera is active; returns at once when a capture is
processing; when a face is detected, no stability timeout is pending,
strictly more than cooldownMs has passed since the last capture and the
next-allowed timestamp has been reached, it schedules the stability
timeout 2000 ms out; when no face is detected it clears any pending
timeout. -/
def tickStep (s : St) (detected : Bool) : St :=
  if !s.cameraActive then s
  else if s.processing then s
  else if detected then
    if s.pending = none ∧ cooldownMs < s.now - s.lastCaptureTime
        ∧ s.nextAllowedCaptureAt ≤ s.now then
      { s with pending := some (s.now + 2000) }
    else s
  else { s with pending := none }

/-- The 2 s stability timeout (lines 491-513) together with the entry of
captureAndSend (lines 263-273): when the timeout fires at its scheduled
time it re-probes for a face; if one is still present and no capture is
processing, captureAndSend starts, setting the last-capture timestamp to
now, raising the next-allowed timestamp to at least now, setting the
processing flag and recording the capture start. The timeout handle is
cleared in every case. -/
def fireStep (s : St) (still : Bool) : St :=
  match s.pending with
  | none => s
  | some t =>
    if s.now = t then
      if still && !s.processing then
        { s with pending := none
                 lastCaptureTime := s.now
                 nextAllowedCaptureAt := max s.nextAllowedCaptureAt s.now
                 processing := true
                 phase := Phase.capturing
                 starts := s.now :: s.starts
                 sinceRetry := s.now :: s.sinceRetry }
      else { s with pending := none }
    else s

/-- captureAndSend, missing-geolocation branch (lines 282-296): no POST
is issued; the next-allowed timestamp moves 10000 ms ahead and the
processing flag is cleared (the source defers the clear by 1000 ms; the
delay is collapsed into this event). The camera is left as it was. -/
def geoFailStep (s : St) : St :=
  if s.phase = Phase.capturing then
    { s with nextAllowedCaptureAt := s.now + 10000
             processing := false
             phase := Phase.idle }
  else s

/-- captureAndSend: takePictureAsync resolved with nothing (lines
304-309): a toast is shown and the processing flag cleared; no cooldown
change, no POST. -/
def photoFailStep (s : St) : St :=
  if s.phase = Phase.capturing then
    { s with processing := false, phase := Phase.idle }
  else s

/-- captureAndSend: the markAttendance POST is issued (line 325). -/
def postStep (s : St) : St :=
  if s.phase = Phase.capturing then
    { s with phase := Phase.posting
             posted := s.posted + 1
             inFlight := s.inFlight + 1 }
  else s

/-- captureAndSend: a response carrying status and message (lines
329-368): the next auto-capture is allowed 8000 ms out. -/
def respOkStep (s : St) : St :=
  if s.phase = Phase.posting then
    { s with inFlight := s.inFlight - 1
             nextAllowedCaptureAt := s.now + 8000
             processing := false
             phase := Phase.idle }
  else s

/-- captureAndSend: a response without status/message (lines 369-374):
6000 ms cooldown. -/
def respUnknownStep (s : St) : St :=
  if s.phase = Phase.posting then
    { s with inFlight := s.inFlight - 1
             nextAllowedCaptureAt := s.now + 6000
             processing := false
             phase := Phase.idle }
  else s

/-- captureAndSend catch branch (lines 375-409) reached when the POST
rejects, by a network error or an error response: the camera is stopped
via stopCameraWith, which also makes the detect-effect cleanup clear the
pending stability timeout; the next-allowed timestamp moves 10000 ms
ahead and the processing flag is cleared. -/
def respErrStep (s : St) : St :=
  if s.phase = Phase.posting then
    { s with inFlight := s.inFlight - 1
             cameraActive := false
             pending := none
             nextAllowedCaptureAt := s.now + 10000
             processing := false
             phase := Phase.idle }
  else s

/-- captureAndSend catch branch reached before any POST was issued
(takePictureAsync threw): the same recovery, with no POST
bookkeeping. -/
def captureErrStep (s : St) : St :=
  if s.phase = Phase.capturing then
    { s with cameraActive := false
             pending := none
             nextAllowedCaptureAt := s.now + 10000
             processing := false
             phase := Phase.idle }
  else s

/-- handleRetry (lines 617-625), reachable from the stopped screen only:
both cooldown references are reset to 0 to allow an immediate retry, the
processing flag is cleared and the camera restarted. -/
def retryStep (s : St) : St :=
  if s.cameraActive then s
  else
    { s with processing := false
             lastCaptureTime := 0
             nextAllowedCaptureAt := 0
             cameraActive := true
             sinceRetry := [] }

/-- One run-to-completion step of the loop. -/
def step (s : St) : Ev → St
  | .advance d => { s with now := s.now + d }
  | .tick detected => tickStep s detected
  | .fire still => fireStep s still
  | .geoFail => geoFailStep s
  | .photoFail => photoFailStep s
  | .post => postStep s
  | .respOk => respOkStep s
  | .respUnknown => respUnknownStep s
  | .respErr => respErrStep s
  | .captureErr => captureErrStep s
  | .retry => retryStep s

/-- Component state right after handleStart on a fresh screen (lines
575-582): both cooldown references 0, camera active, nothing pending.
The clock starts at 0. -/
def init : St :=
  { now := 0, lastCaptureTime := 0, nextAllowedCaptureAt := 0, processing := false
    cameraActive := true, pending := none, phase := Phase.idle, starts := []
    posted := 0, inFlight := 0, sinceRetry := [] }

/-- The state after a sequence of loop events from the initial state. -/
def run (es : List Ev) : St := es.foldl step init

/-- Consecutive auto-initiated capture start times (most recent first)
are strictly more than 10000 ms apart. -/
def gapOk (l : List Nat) : Prop :=
  List.Chain' (fun a b => b + 10000 < a) l

/-- Spacing invariant of the loop, stated on the starts recorded since
the last manual retry: they are properly gapped, the most recent of them
never exceeds the last-capture reference, and a pending stability
timeout lies strictly beyond the most recent of them plus the cooldown.
Stated on sinceRetry rather than starts, the invariant survives every
event including retry (which clears sinceRetry), so it holds over
arbitrary executions. -/
def Inv (s : St) : Prop :=
  gapOk s.sinceRetry
  ∧ (∀ a, s.sinceRetry.head? = some a → a ≤ s.lastCaptureTime)
  ∧ (∀ t a, s.pending = some t → s.sinceRetry.head? = some a → a + 10000 < t)

end AutoLoop

namespace ManualCap

/-- Progress of a handleCapture run on the manual attendance screen. -/
inductive MPhase where
  | idle
  | taking
  | posting
deriving DecidableEq

/-- Manual attendance screen state (part_000): the processing flag, the
progress of the running handleCapture, and bookkeeping of markAttendance
POSTs (currently outstanding and total issued). -/
structure St where
  processing : Bool
  phase : MPhase
  inFlight : Nat
  posted : Nat
deriving DecidableEq

/-- Events: the capture button tap, the resolution of takePictureAsync,
and the settlement of the POST (fulfilled or rejected; the finally block
treats both alike). -/
inductive Ev where
  | press (cameraReady : Bool)
  | photoDone (ok : Bool)
  | resolve (ok : Bool)
deriving DecidableEq

/-- part_000 handleCapture entry (line 129): the guard returns before
any mutation when a capture is already processing or the camera ref is
absent; otherwise the processing flag is set and the photo capture
begins. -/
def pressStep (s : St) (cameraReady : Bool) : St :=
  if s.processing || !cameraReady then s
  else { s with processing := true, phase := MPhase.taking }

/-- part_000 handleCapture after takePictureAsync resolves (lines
133-151): a resolved photo issues exactly one markAttendance POST; a
null photo shows a toast and clears the flag. -/
def photoDoneStep (s : St) (ok : Bool) : St :=
  if s.phase = MPhase.taking then
    if ok then
      { s with phase := MPhase.posting
               inFlight := s.inFlight + 1
               posted := s.posted + 1 }
    else { s with processing := false, phase := MPhase.idle }
  else s

/-- part_000 handleCapture when the POST settles (lines 151-225): the
finally block clears the flag whether the POST fulfilled or rejected. -/
def resolveStep (s : St) : St :=
  if s.phase = MPhase.posting then
    { s with inFlight := s.inFlight - 1
             processing := false
             phase := MPhase.idle }
  else s

/-- part_000 handleCapture (lines 128-226), decomposed at its await
points into one run-to-completion step per event. -/
def step (s : St) : Ev → St
  | .press cameraReady => pressStep s cameraReady
  | .photoDone ok => photoDoneStep s ok
  | .resolve _ => resolveStep s

/-- Freshly mounted screen: idle, nothing in flight. -/
def init : St :=
  { processing := false, phase := MPhase.idle, inFlight := 0, posted := 0 }

/-- States the manual screen can actually reach. -/
inductive Reachable : St → Prop where
  | init : Reachable init
  | next {s : St} (e : Ev) : Reachable s → Reachable (step s e)

/-- Flight invariant: a POST is outstanding exactly while the run is in
its posting stage, and any non-idle stage holds the processing flag. -/
def Inv (s : St) : Prop :=
  (s.inFlight = if s.phase = MPhase.posting then 1 else 0)
  ∧ (s.phase ≠ MPhase.idle → s.processing = true)

end ManualCap

theorem clearAuthData_key_none (st : Session.Store) :
    Session.clearAuthData st Session.AUTH_STORAGE_KEY = none := by
  simp [Session.clearAuthData, Session.LEGACY_AUTH_KEYS, Session.removeItem,
    Session.AUTH_STORAGE_KEY]

theorem getAuthData_of_key_none (st : Session.Store)
    (h : st Session.AUTH_STORAGE_KEY = none) :
    Session.getAuthData st = (none, st) := by
  unfold Session.getAuthData Session.getItem
  rw [h]

theorem getAuthData_clear_fst (st : Session.Store) :
    (Session.getAuthData (Session.clearAuthData st)).1 = none := by
  rw [getAuthData_of_key_none _ (clearAuthData_key_none st)]

theorem setAuthData_some_eq (a : Session.AuthData) (st : Session.Store) :
    Session.setAuthData (some a) st
      = Session.setItem Session.AUTH_STORAGE_KEY (Session.Blob.json a) st := by
  simp [Session.setAuthData, Session.LEGACY_AUTH_KEYS, Session.AUTH_STORAGE_KEY,
    Session.jsonStringify]

/-- C2: a response error with status 401 or 403 clears the persisted
auth record from device storage (the key is removed, so a subsequent
read yields null) and reports the registered logout callback as invoked,
while the promise is rejected with the original error; for any other
error the stored data is left unchanged, no logout is triggered, and the
error is still re-rejected. -/
theorem authError_clears_auth :
    (∀ (cb : Bool) (e : HttpC.HttpError) (st : Session.Store) (r : HttpC.ErrResponse),
        e.response = some r → (r.status = 401 ∨ r.status = 403) →
        (HttpC.onResponseError cb e st).store Session.AUTH_STORAGE_KEY = none
        ∧ (Session.getAuthData (HttpC.onResponseError cb e st).store).1 = none
        ∧ (HttpC.onResponseError cb e st).calledLogout = cb
        ∧ (HttpC.onResponseError cb e st).result = Except.error e)
    ∧ (∀ (cb : Bool) (e : HttpC.HttpError) (st : Session.Store),
        (∀ r, e.response = some r → r.status ≠ 401 ∧ r.status ≠ 403) →
        (HttpC.onResponseError cb e st).store = st
        ∧ (HttpC.onResponseError cb e st).calledLogout = false
        ∧ (HttpC.onResponseError cb e st).result = Except.error e) := by
  constructor
  · intro cb e st r hr hst
    have hb : (match e.response with
        | some r => r.status == 401 || r.status == 403
        | none => false) = true := by
      rw [hr]
      rcases hst with h | h <;> simp [h]
    unfold HttpC.onResponseError
    rw [hb]
    exact ⟨clearAuthData_key_none st, getAuthData_clear_fst st, rfl, rfl⟩
  · intro cb e st hother
    have hb : (match e.response with
        | some r => r.status == 401 || r.status == 403
        | none => false) = false := by
      cases he : e.response with
      | none => rfl
      | some r =>
        obtain ⟨h1, h2⟩ := hother r he
        simp [h1, h2]
    unfold HttpC.onResponseError
    rw [hb]
    exact ⟨rfl, rfl, rfl⟩

theorem authError_clears_auth_wit :
    (HttpC.onResponseError true ⟨some ⟨401⟩⟩ (fun _ => none)).store
        Session.AUTH_STORAGE_KEY = none
    ∧ (Session.getAuthData
        (HttpC.onResponseError true ⟨some ⟨401⟩⟩ (fun _ => none)).store).1 = none
    ∧ (HttpC.onResponseError true ⟨some ⟨401⟩⟩ (fun _ => none)).calledLogout = true
    ∧ (HttpC.onResponseError true ⟨some ⟨401⟩⟩ (fun _ => none)).result
        = Except.error ⟨some ⟨401⟩⟩ :=
  authError_clears_auth.1 true ⟨some ⟨401⟩⟩ (fun _ => none) ⟨401⟩ rfl (Or.inl rfl)

/-- C4: the attendance submission is a multipart form carrying the
captured image and, when geolocation is available, the latitude,
longitude and accuracy fields; the manual capture flow submits the image
to the same attendance endpoint with no geolocation fields at all, so
the geolocation fields are optional in the HTTP contract. -/
theorem attendance_form_geo_optional :
    (∀ u la lo ac : String,
        (FormD.captureAndSendForm u la lo ac).map Prod.fst
          = ["image", "latitude", "longitude", "accuracy"])
    ∧ (∀ u : String, (FormD.handleCaptureForm u).map Prod.fst = ["image"])
    ∧ (∀ u : String,
        "image" ∈ (FormD.handleCaptureForm u).map Prod.fst
        ∧ "latitude" ∉ (FormD.handleCaptureForm u).map Prod.fst
        ∧ "longitude" ∉ (FormD.handleCaptureForm u).map Prod.fst
        ∧ "accuracy" ∉ (FormD.handleCaptureForm u).map Prod.fst)
    ∧ FormD.attendancePath = "/attendance/" := by
  refine ⟨fun u la lo ac => rfl, fun u => rfl, fun u => ?_, rfl⟩
  refine ⟨?_, ?_, ?_, ?_⟩ <;> simp [FormD.handleCaptureForm]

/-- C8: the auth blob round-trips under the single storage key: reading
immediately after setAuthData a returns a; setAuthData null and
clearAuthData each make a subsequent read return null; and
isAuthenticated is true exactly when the record read from storage has a
non-empty token. -/
theorem auth_blob_roundtrip :
    (∀ (a : Session.AuthData) (st : Session.Store),
        (Session.getAuthData (Session.setAuthData (some a) st)).1 = some a)
    ∧ (∀ st : Session.Store,
        (Session.getAuthData (Session.setAuthData none st)).1 = none)
    ∧ (∀ st : Session.Store,
        (Session.getAuthData (Session.clearAuthData st)).1 = none)
    ∧ (∀ st : Session.Store,
        Session.isAuthenticated st = true ↔
          ∃ (a : Session.AuthData) (t : String),
            (Session.getAuthData st).1 = some a ∧ a.token = some t ∧ t ≠ "") := by
  refine ⟨?_, ?_, getAuthData_clear_fst, ?_⟩
  · intro a st
    rw [setAuthData_some_eq]
    unfold Session.getAuthData Session.getItem Session.setItem
    simp [Session.blobTruthy, Session.jsonParse]
  · intro st
    have h : Session.setAuthData none st Session.AUTH_STORAGE_KEY = none := by
      simp [Session.setAuthData, Session.LEGACY_AUTH_KEYS, Session.removeItem,
        Session.AUTH_STORAGE_KEY]
    rw [getAuthData_of_key_none _ h]
  · intro st
    unfold Session.isAuthenticated Session.tokenTruthy
    cases hg : (Session.getAuthData st).1 with
    | none => simp
    | some a =>
      cases ht : a.token with
      | none =>
        simp only [ht]
        constructor
        · intro h; exact absurd h (by simp)
        · rintro ⟨a', t', ha', ht', hne⟩
          cases Option.some.inj ha'
          rw [ht] at ht'
          exact absurd ht' (by simp)
      | some t =>
        simp only [ht, bne_iff_ne, ne_eq]
        constructor
        · intro hne
          exact ⟨a, t, rfl, ht, hne⟩
        · rintro ⟨a', t', ha', ht', hne⟩
          cases Option.some.inj ha'
          rw [ht] at ht'
          cases Option.some.inj ht'
          exact hne

/-- C10 counterexample: a stored blob that is the empty string fails to
parse as JSON (JSON.parse of an empty input throws), yet getAuthData
returns null without removing the key, because the falsy check on the
raw value short-circuits before the parse. The claim that every
unparsable stored blob is removed on first read is therefore false. -/
theorem getAuthData_corrupt_cex :
    ¬ (∀ (st : Session.Store) (raw : String),
        st Session.AUTH_STORAGE_KEY = some (Session.Blob.malformed raw) →
        (Session.getAuthData st).1 = none
        ∧ (Session.getAuthData st).2 Session.AUTH_STORAGE_KEY = none) := by
  intro h
  have hc := h (fun q => if q = Session.AUTH_STORAGE_KEY
      then some (Session.Blob.malformed "") else none) "" (by simp)
  have h2 := hc.2
  simp [Session.getAuthData, Session.getItem, Session.blobTruthy] at h2

/-- C10 amended: getAuthData is total at the public interface: with no
stored blob it returns null leaving the store untouched; a stored
non-empty blob that fails to parse as JSON is removed and null is
returned; a stored empty-string blob is treated as absent (the falsy
check precedes the parse), so null is returned with the key left in
place. In every case a value is returned rather than an exception
propagated. -/
theorem getAuthData_total_amended :
    (∀ st : Session.Store, st Session.AUTH_STORAGE_KEY = none →
        Session.getAuthData st = (none, st))
    ∧ (∀ (st : Session.Store) (raw : String), raw ≠ "" →
        st Session.AUTH_STORAGE_KEY = some (Session.Blob.malformed raw) →
        (Session.getAuthData st).1 = none
        ∧ (Session.getAuthData st).2 Session.AUTH_STORAGE_KEY = none)
    ∧ (∀ st : Session.Store,
        st Session.AUTH_STORAGE_KEY = some (Session.Blob.malformed "") →
        Session.getAuthData st = (none, st)) := by
  refine ⟨getAuthData_of_key_none, ?_, ?_⟩
  · intro st raw hraw h
    unfold Session.getAuthData Session.getItem
    rw [h]
    simp [Session.blobTruthy, Session.jsonParse, Session.removeItem, hraw]
  · intro st h
    unfold Session.getAuthData Session.getItem
    rw [h]
    simp [Session.blobTruthy]

theorem getAuthData_total_amended_wit :
    (Session.getAuthData (fun _ => none)).fst = none
    ∧ (Session.getAuthData (fun q => if q = Session.AUTH_STORAGE_KEY
        then some (Session.Blob.malformed "not json") else none)).1 = none :=
  ⟨by rw [getAuthData_total_amended.1 (fun _ => none) rfl],
   (getAuthData_total_amended.2.1 _ "not json" (by simp) (by simp)).1⟩

/-- C7: when a truthy token is persisted and the request carries neither
an "Authorization" nor an "authorization" header, the request
interceptor sets both to "Token " followed by the token and touches no
other header; when no truthy token is persisted (none stored, or an
empty token), the headers are returned exactly as they came, with
nothing added. -/
theorem request_interceptor_auth_header :
    (∀ (t : String) (h : HttpC.Headers), t ≠ "" →
        h "Authorization" = none → h "authorization" = none →
        ∃ g : HttpC.Headers,
          HttpC.requestInterceptor (some t) (some h) = some g
          ∧ g "Authorization" = some ("Token " ++ t)
          ∧ g "authorization" = some ("Token " ++ t)
          ∧ ∀ k, k ≠ "Authorization" → k ≠ "authorization" → g k = h k)
    ∧ (∀ hs : Option HttpC.Headers, HttpC.requestInterceptor none hs = hs)
    ∧ (∀ hs : Option HttpC.Headers, HttpC.requestInterceptor (some "") hs = hs) := by
  refine ⟨?_, fun hs => rfl, ?_⟩
  · intro t h ht hA ha
    refine ⟨HttpC.setHeader "authorization" ("Token " ++ t)
        (HttpC.setHeader "Authorization" ("Token " ++ t) h), ?_, ?_, ?_, ?_⟩
    · unfold HttpC.requestInterceptor
      simp [ht, HttpC.headerTruthy, hA, ha]
    · simp [HttpC.setHeader]
    · simp [HttpC.setHeader]
    · intro k hk1 hk2
      simp [HttpC.setHeader, hk1, hk2]
  · intro hs
    unfold HttpC.requestInterceptor
    simp

theorem request_interceptor_auth_header_wit :
    ∃ g : HttpC.Headers,
      HttpC.requestInterceptor (some "tok123") (some HttpC.emptyHeaders) = some g
      ∧ g "Authorization" = some ("Token " ++ "tok123")
      ∧ g "authorization" = some ("Token " ++ "tok123")
      ∧ ∀ k, k ≠ "Authorization" → k ≠ "authorization" → g k = HttpC.emptyHeaders k :=
  request_interceptor_auth_header.1 "tok123" HttpC.emptyHeaders (by simp) rfl rfl

/-- C3 counterexample: an error field holding the empty string is a
string other than the two recognized ones, but it is falsy, so the code
falls through to the first-field handling and shows the toast with the
"Connection Error" title instead of showing the string verbatim under
the "Error" title. -/
theorem failure_toast_cex :
    ¬ (∀ v : String, v ≠ "No face detected" → v ≠ "Face not recognized" →
        ErrMap.failureToast ⟨some [("error", ErrMap.JVal.s v)]⟩ = "Error: " ++ v) := by
  intro h
  have hc := h "" (by simp) (by simp)
  rw [show ErrMap.failureToast ⟨some [("error", ErrMap.JVal.s "")]⟩
      = "Connection Error: " from rfl] at hc
  simp at hc

/-- C3 amended: the failure toast maps the backend error strings as
claimed, with the verbatim "Error" rendering restricted to non-empty
error strings: "No face detected" and "Face not recognized" map to their
fixed texts, any other non-empty error string is shown verbatim under
the "Error" title, an absent (or empty, hence falsy) error field shows
the first field of the response body under the "Connection Error" title,
and a missing body yields the generic connection-failure text. -/
theorem failure_toast_mapping :
    (∀ kvs : List (String × ErrMap.JVal),
        kvs.lookup "error" = some (ErrMap.JVal.s "No face detected") →
        ErrMap.failureToast ⟨some kvs⟩
          = "No Face Found: Please ensure your face is clearly visible in the frame")
    ∧ (∀ kvs : List (String × ErrMap.JVal),
        kvs.lookup "error" = some (ErrMap.JVal.s "Face not recognized") →
        ErrMap.failureToast ⟨some kvs⟩
          = "Unregistered Face: Your face is not registered in the system. Please contact administrator.")
    ∧ (∀ (kvs : List (String × ErrMap.JVal)) (v : String),
        kvs.lookup "error" = some (ErrMap.JVal.s v) → v ≠ "" →
        v ≠ "No face detected" → v ≠ "Face not recognized" →
        ErrMap.failureToast ⟨some kvs⟩ = "Error: " ++ v)
    ∧ (∀ kvs : List (String × ErrMap.JVal),
        kvs.lookup "error" = some (ErrMap.JVal.s "") →
        ErrMap.failureToast ⟨some kvs⟩
          = "Connection Error: " ++ ErrMap.firstFieldMsg kvs)
    ∧ (∀ kvs : List (String × ErrMap.JVal),
        kvs.lookup "error" = none →
        ErrMap.failureToast ⟨some kvs⟩
          = "Connection Error: " ++ ErrMap.firstFieldMsg kvs)
    ∧ ErrMap.failureToast ⟨none⟩ = "Connection Error: Server connection failed" := by
  refine ⟨?_, ?_, ?_, ?_, ?_, rfl⟩
  · intro kvs hl
    simp [ErrMap.failureToast, hl, ErrMap.jvalTruthy]
  · intro kvs hl
    simp [ErrMap.failureToast, hl, ErrMap.jvalTruthy]
  · intro kvs v hl hv h1 h2
    simp [ErrMap.failureToast, hl, ErrMap.jvalTruthy, ErrMap.jvalToText, hv, h1, h2]
  · intro kvs hl
    simp [ErrMap.failureToast, hl, ErrMap.jvalTruthy]
  · intro kvs hl
    simp [ErrMap.failureToast, hl]

theorem failure_toast_mapping_wit :
    ErrMap.failureToast ⟨some [("error", ErrMap.JVal.s "No face detected")]⟩
      = "No Face Found: Please ensure your face is clearly visible in the frame"
    ∧ ErrMap.failureToast ⟨some [("error", ErrMap.JVal.s "Face not recognized")]⟩
      = "Unregistered Face: Your face is not registered in the system. Please contact administrator."
    ∧ ErrMap.failureToast ⟨some [("error", ErrMap.JVal.s "boom")]⟩ = "Error: " ++ "boom"
    ∧ ErrMap.failureToast ⟨some [("error", ErrMap.JVal.s "")]⟩
      = "Connection Error: " ++ ErrMap.firstFieldMsg [("error", ErrMap.JVal.s "")]
    ∧ ErrMap.failureToast ⟨some [("detail", ErrMap.JVal.arr ["bad token"])]⟩
      = "Connection Error: " ++ ErrMap.firstFieldMsg [("detail", ErrMap.JVal.arr ["bad token"])] :=
  ⟨failure_toast_mapping.1 _ rfl,
   failure_toast_mapping.2.1 _ rfl,
   failure_toast_mapping.2.2.1 _ "boom" rfl (by simp) (by simp) (by simp),
   failure_toast_mapping.2.2.2.1 _ rfl,
   failure_toast_mapping.2.2.2.2.1 _ rfl⟩

/-- C9: every toast that showToast actually adds is appended together
with a removal timer scheduled at the fixed 5000 ms delay for exactly
that toast id (a rate-limited call adds nothing and schedules nothing);
and removeToast keeps precisely the toasts whose id differs, as a
sublist of the original list, so every other in-flight toast survives
unchanged and in its original order. -/
theorem toast_ttl_and_removal :
    (∀ (now : Nat) (msg : String) (ty : Toasts.TType)
        (emp ci co : Option String) (key : Option String) (st : Toasts.ToastState),
        ((Toasts.showToast now msg ty emp ci co key st).timer = none
          ∧ (Toasts.showToast now msg ty emp ci co key st).state.toasts = st.toasts)
        ∨ (∃ tm : Toasts.ToastMessage,
            (Toasts.showToast now msg ty emp ci co key st).state.toasts
              = st.toasts ++ [tm]
            ∧ (Toasts.showToast now msg ty emp ci co key st).timer
              = some (tm.id, 5000)))
    ∧ (∀ (i : String) (l : List Toasts.ToastMessage),
        List.Sublist (Toasts.removeToast i l) l)
    ∧ (∀ (i : String) (l : List Toasts.ToastMessage) (t : Toasts.ToastMessage),
        t ∈ Toasts.removeToast i l ↔ (t ∈ l ∧ t.id ≠ i)) := by
  refine ⟨?_, ?_, ?_⟩
  · intro now msg ty emp ci co key st
    cases hg : Toasts.rateLimited now key st.lastToastTime with
    | true =>
      left
      constructor <;> simp [Toasts.showToast, hg]
    | false =>
      right
      refine ⟨⟨toString now, msg, ty, emp, ci, co⟩, ?_, ?_⟩ <;>
        simp [Toasts.showToast, hg, Toasts.TOAST_TTL_MS]
  · intro i l
    exact List.filter_sublist l
  · intro i l t
    simp [Toasts.removeToast, List.mem_filter]

theorem toast_ttl_and_removal_wit :
    ({ id := "2", message := "b", ttype := Toasts.TType.error, employee := none,
        checkin := none, checkout := none } : Toasts.ToastMessage)
      ∈ Toasts.removeToast "1"
        [{ id := "2", message := "b", ttype := Toasts.TType.error, employee := none,
            checkin := none, checkout := none }] :=
  (toast_ttl_and_removal.2.2 "1" _ _).mpr ⟨by simp, by simp⟩


theorem autoLoop_inv_init : AutoLoop.Inv AutoLoop.init := by
  refine ⟨List.chain'_nil, ?_, ?_⟩ <;> intro _ <;> simp [AutoLoop.init]

theorem autoLoop_inv_step (s : AutoLoop.St) (e : AutoLoop.Ev)
    (hs : AutoLoop.Inv s) :
    AutoLoop.Inv (AutoLoop.step s e) := by
  obtain ⟨h1, h2, h3⟩ := hs
  cases e with
  | advance d => exact ⟨h1, h2, h3⟩
  | tick detected =>
    show AutoLoop.Inv (AutoLoop.tickStep s detected)
    unfold AutoLoop.tickStep
    split
    · exact ⟨h1, h2, h3⟩
    split
    · exact ⟨h1, h2, h3⟩
    split
    · split
      · rename_i hgate
        obtain ⟨hp, hcool, hnext⟩ := hgate
        refine ⟨h1, h2, ?_⟩
        intro t a hpend hhead
        have ht : s.now + 2000 = t := Option.some.inj hpend
        have ha : a ≤ s.lastCaptureTime := h2 a hhead
        have hcool' : 10000 < s.now - s.lastCaptureTime := hcool
        omega
      · exact ⟨h1, h2, h3⟩
    · refine ⟨h1, h2, ?_⟩
      intro t a hpend hhead
      exact Option.noConfusion hpend
  | fire still =>
    show AutoLoop.Inv (AutoLoop.fireStep s still)
    unfold AutoLoop.fireStep
    split
    · exact ⟨h1, h2, h3⟩
    rename_i t hpend
    split
    · rename_i hnow
      split
      · refine ⟨?_, ?_, ?_⟩
        · show List.Chain' (fun a b => b + 10000 < a) (s.now :: s.sinceRetry)
          rw [List.chain'_cons']
          refine ⟨?_, h1⟩
          intro b hb
          have hb' : s.sinceRetry.head? = some b := Option.mem_def.mp hb
          have := h3 t b hpend hb'
          omega
        · intro a hhead
          have ha : s.now = a :=
            Option.some.inj (show some s.now = some a from hhead)
          show a ≤ s.now
          omega
        · intro u a hp
          exact absurd hp (Option.noConfusion)
      · refine ⟨h1, h2, ?_⟩
        intro u a hp
        exact absurd hp (Option.noConfusion)
    · exact ⟨h1, h2, h3⟩
  | geoFail =>
    show AutoLoop.Inv (AutoLoop.geoFailStep s)
    unfold AutoLoop.geoFailStep
    split <;> exact ⟨h1, h2, h3⟩
  | photoFail =>
    show AutoLoop.Inv (AutoLoop.photoFailStep s)
    unfold AutoLoop.photoFailStep
    split <;> exact ⟨h1, h2, h3⟩
  | post =>
    show AutoLoop.Inv (AutoLoop.postStep s)
    unfold AutoLoop.postStep
    split <;> exact ⟨h1, h2, h3⟩
  | respOk =>
    show AutoLoop.Inv (AutoLoop.respOkStep s)
    unfold AutoLoop.respOkStep
    split <;> exact ⟨h1, h2, h3⟩
  | respUnknown =>
    show AutoLoop.Inv (AutoLoop.respUnknownStep s)
    unfold AutoLoop.respUnknownStep
    split <;> exact ⟨h1, h2, h3⟩
  | respErr =>
    show AutoLoop.Inv (AutoLoop.respErrStep s)
    unfold AutoLoop.respErrStep
    split
    · refine ⟨h1, h2, ?_⟩
      intro u a hp
      exact absurd hp (Option.noConfusion)
    · exact ⟨h1, h2, h3⟩
  | captureErr =>
    show AutoLoop.Inv (AutoLoop.captureErrStep s)
    unfold AutoLoop.captureErrStep
    split
    · refine ⟨h1, h2, ?_⟩
      intro u a hp
      exact absurd hp (Option.noConfusion)
    · exact ⟨h1, h2, h3⟩
  | retry =>
    show AutoLoop.Inv (AutoLoop.retryStep s)
    unfold AutoLoop.retryStep
    split
    · exact ⟨h1, h2, h3⟩
    · refine ⟨List.chain'_nil, ?_, ?_⟩
      · intro a hhead
        exact Option.noConfusion hhead
      · intro t a _ hhead
        exact Option.noConfusion hhead

theorem autoLoop_inv_fold (es : List AutoLoop.Ev) :
    ∀ s : AutoLoop.St, AutoLoop.Inv s →
      AutoLoop.Inv (es.foldl AutoLoop.step s) := by
  induction es with
  | nil => intro s hs; exact hs
  | cons e es ih =>
    intro s hs
    rw [List.foldl_cons]
    exact ih _ (autoLoop_inv_step s e hs)

/-- C1 counterexample: the spacing guarantee does not hold over all
executions of the loop. After a capture that starts at 22000 ms and
fails, the camera stops; pressing Retry resets both cooldown references
to 0, so the very next detection cycle passes the gate and a second
auto-initiated capture starts at 25000 ms, only 3 seconds after the
previous one. -/
theorem autoCapture_spacing_cex :
    ¬ (∀ es : List AutoLoop.Ev, AutoLoop.gapOk (AutoLoop.run es).starts) := by
  intro h
  have hc := h [AutoLoop.Ev.advance 20000, AutoLoop.Ev.tick true,
    AutoLoop.Ev.advance 2000, AutoLoop.Ev.fire true, AutoLoop.Ev.post,
    AutoLoop.Ev.advance 500, AutoLoop.Ev.respErr, AutoLoop.Ev.advance 500,
    AutoLoop.Ev.retry, AutoLoop.Ev.tick true, AutoLoop.Ev.advance 2000,
    AutoLoop.Ev.fire true]
  rw [show (AutoLoop.run [AutoLoop.Ev.advance 20000, AutoLoop.Ev.tick true,
    AutoLoop.Ev.advance 2000, AutoLoop.Ev.fire true, AutoLoop.Ev.post,
    AutoLoop.Ev.advance 500, AutoLoop.Ev.respErr, AutoLoop.Ev.advance 500,
    AutoLoop.Ev.retry, AutoLoop.Ev.tick true, AutoLoop.Ev.advance 2000,
    AutoLoop.Ev.fire true]).starts = [25000, 22000] by rfl] at hc
  unfold AutoLoop.gapOk at hc
  rw [List.chain'_cons] at hc
  omega

/-- C1 amended: the periodic detection step initiates a capture only
when strictly more than the 10000 ms cooldown has passed since the
last-capture timestamp and the next-allowed timestamp has been reached;
and in every execution, manual retries included, the auto-initiated
capture start times recorded since the last manual retry are pairwise
spaced by strictly more than 10000 ms. Any pair of captures with no
retry between them, also after an earlier retry, appears adjacently in
the sinceRetry history of the execution prefix that ends at the later
capture, so the second conjunct, quantified over all event lists,
yields the more-than-10-seconds spacing for exactly those pairs. -/
theorem autoCapture_spacing_amended :
    (∀ (s : AutoLoop.St) (t : Nat),
        s.pending = none →
        (AutoLoop.step s (AutoLoop.Ev.tick true)).pending = some t →
        AutoLoop.cooldownMs < s.now - s.lastCaptureTime
          ∧ s.nextAllowedCaptureAt ≤ s.now ∧ t = s.now + 2000)
    ∧ (∀ es : List AutoLoop.Ev, AutoLoop.gapOk (AutoLoop.run es).sinceRetry) := by
  constructor
  · intro s t hp hsched
    have hstep : AutoLoop.step s (AutoLoop.Ev.tick true) = AutoLoop.tickStep s true := rfl
    rw [hstep] at hsched
    unfold AutoLoop.tickStep at hsched
    split at hsched
    · exact absurd (hp ▸ hsched) (Option.noConfusion)
    split at hsched
    · exact absurd (hp ▸ hsched) (Option.noConfusion)
    split at hsched
    · split at hsched
      · rename_i hgate
        obtain ⟨_, hcool, hnext⟩ := hgate
        have ht : s.now + 2000 = t := Option.some.inj hsched
        exact ⟨hcool, hnext, ht.symm⟩
      · exact absurd (hp ▸ hsched) (Option.noConfusion)
    · simp at hsched
  · intro es
    exact (autoLoop_inv_fold es AutoLoop.init autoLoop_inv_init).1

theorem autoCapture_spacing_amended_wit :
    (AutoLoop.cooldownMs < 20000 - 0 ∧ 0 ≤ 20000 ∧ 22000 = 20000 + 2000)
    ∧ AutoLoop.gapOk (AutoLoop.run [AutoLoop.Ev.advance 20000, AutoLoop.Ev.tick true,
        AutoLoop.Ev.advance 2000, AutoLoop.Ev.fire true, AutoLoop.Ev.post,
        AutoLoop.Ev.advance 500, AutoLoop.Ev.respErr, AutoLoop.Ev.advance 500,
        AutoLoop.Ev.retry, AutoLoop.Ev.tick true, AutoLoop.Ev.advance 2000,
        AutoLoop.Ev.fire true]).sinceRetry :=
  ⟨autoCapture_spacing_amended.1
      ⟨20000, 0, 0, false, true, none, AutoLoop.Phase.idle, [], 0, 0, []⟩
      22000 rfl (by decide),
   autoCapture_spacing_amended.2 _⟩


theorem manualCap_inv (s : ManualCap.St) (h : ManualCap.Reachable s) :
    ManualCap.Inv s := by
  induction h with
  | init =>
    refine ⟨?_, ?_⟩ <;> simp [ManualCap.init]
  | next e hr ih =>
    obtain ⟨hf, hp⟩ := ih
    rename_i s'
    cases e with
    | press b =>
      show ManualCap.Inv (ManualCap.pressStep s' b)
      unfold ManualCap.pressStep
      split
      · exact ⟨hf, hp⟩
      · rename_i hcond
        have hproc : s'.processing = false := by
          cases hpr : s'.processing
          · rfl
          · exact absurd (by simp [hpr]) hcond
        have hidle : s'.phase = ManualCap.MPhase.idle := by
          by_contra hne
          rw [hp hne] at hproc
          exact Bool.noConfusion hproc
        constructor
        · show s'.inFlight = _
          rw [hf, hidle]
          rfl
        · intro _
          rfl
    | photoDone ok =>
      show ManualCap.Inv (ManualCap.photoDoneStep s' ok)
      unfold ManualCap.photoDoneStep
      split
      · rename_i htak
        split
        · constructor
          · show s'.inFlight + 1 = _
            rw [hf, htak]
            rfl
          · intro _
            exact hp (by rw [htak]; simp)
        · constructor
          · show s'.inFlight = _
            rw [hf, htak]
            rfl
          · intro hne
            exact absurd rfl hne
      · exact ⟨hf, hp⟩
    | resolve b =>
      show ManualCap.Inv (ManualCap.resolveStep s')
      unfold ManualCap.resolveStep
      split
      · rename_i hpos
        constructor
        · show s'.inFlight - 1 = _
          rw [hf, hpos]
          rfl
        · intro hne
          exact absurd rfl hne
      · exact ⟨hf, hp⟩

/-- C5: while a submission is processing, invoking the capture handler
is a no-op: the state is returned unchanged, so no network call is made;
presses and settlements never issue a POST themselves; the single POST
of a capture cycle is issued exactly when a photo resolves during the
taking stage; hence in every reachable state at most one attendance POST
is in flight. The auto screen shares the guard: a fire of the stability
timeout while captureAndSend is processing changes none of the capture
state beyond clearing the timeout handle. -/
theorem capture_single_flight :
    (∀ (s : ManualCap.St) (b : Bool), s.processing = true →
        ManualCap.step s (ManualCap.Ev.press b) = s)
    ∧ (∀ s : ManualCap.St, ManualCap.Reachable s → s.inFlight ≤ 1)
    ∧ (∀ (s : ManualCap.St) (b : Bool),
        (ManualCap.step s (ManualCap.Ev.press b)).posted = s.posted)
    ∧ (∀ (s : ManualCap.St) (b : Bool),
        (ManualCap.step s (ManualCap.Ev.resolve b)).posted = s.posted)
    ∧ (∀ s : ManualCap.St, s.phase = ManualCap.MPhase.taking →
        (ManualCap.step s (ManualCap.Ev.photoDone true)).posted = s.posted + 1)
    ∧ (∀ (s : AutoLoop.St) (b : Bool), s.processing = true →
        (AutoLoop.step s (AutoLoop.Ev.fire b)).starts = s.starts
        ∧ (AutoLoop.step s (AutoLoop.Ev.fire b)).posted = s.posted
        ∧ (AutoLoop.step s (AutoLoop.Ev.fire b)).lastCaptureTime = s.lastCaptureTime
        ∧ (AutoLoop.step s (AutoLoop.Ev.fire b)).processing = true) := by
  refine ⟨?_, ?_, ?_, ?_, ?_, ?_⟩
  · intro s b hproc
    show ManualCap.pressStep s b = s
    unfold ManualCap.pressStep
    simp [hproc]
  · intro s hr
    have hfl := (manualCap_inv s hr).1
    rw [hfl]
    split <;> omega
  · intro s b
    show (ManualCap.pressStep s b).posted = s.posted
    unfold ManualCap.pressStep
    split <;> rfl
  · intro s b
    show (ManualCap.resolveStep s).posted = s.posted
    unfold ManualCap.resolveStep
    split <;> rfl
  · intro s htak
    show (ManualCap.photoDoneStep s true).posted = s.posted + 1
    unfold ManualCap.photoDoneStep
    rw [if_pos htak]
    rfl
  · intro s b hproc
    show (AutoLoop.fireStep s b).starts = s.starts
      ∧ (AutoLoop.fireStep s b).posted = s.posted
      ∧ (AutoLoop.fireStep s b).lastCaptureTime = s.lastCaptureTime
      ∧ (AutoLoop.fireStep s b).processing = true
    unfold AutoLoop.fireStep
    split
    · exact ⟨rfl, rfl, rfl, hproc⟩
    split
    · simp [hproc]
    · exact ⟨rfl, rfl, rfl, hproc⟩

theorem capture_single_flight_wit :
    (ManualCap.step ⟨true, ManualCap.MPhase.taking, 0, 3⟩
        (ManualCap.Ev.press true) = ⟨true, ManualCap.MPhase.taking, 0, 3⟩)
    ∧ (ManualCap.step ManualCap.init (ManualCap.Ev.press true)).inFlight ≤ 1
    ∧ (ManualCap.step ⟨true, ManualCap.MPhase.taking, 0, 3⟩
        (ManualCap.Ev.photoDone true)).posted = 3 + 1 :=
  ⟨capture_single_flight.1 ⟨true, ManualCap.MPhase.taking, 0, 3⟩ true rfl,
   capture_single_flight.2.1 _
     (ManualCap.Reachable.next (ManualCap.Ev.press true) ManualCap.Reachable.init),
   capture_single_flight.2.2.2.2.1 ⟨true, ManualCap.MPhase.taking, 0, 3⟩ rfl⟩

/-- C6: when the attendance POST rejects (network error or error
response) or the photo capture throws, the recovery path stops the
camera, moves the next-allowed-capture timestamp 10000 ms past the
current time and clears the processing flag; when geolocation is
unavailable the submission is skipped (no POST is counted), the
next-allowed timestamp likewise moves 10000 ms ahead, the processing
flag is cleared and the camera is left as it was. -/
theorem submission_failure_recovery :
    (∀ s : AutoLoop.St, s.phase = AutoLoop.Phase.posting →
        (AutoLoop.step s AutoLoop.Ev.respErr).cameraActive = false
        ∧ (AutoLoop.step s AutoLoop.Ev.respErr).nextAllowedCaptureAt = s.now + 10000
        ∧ (AutoLoop.step s AutoLoop.Ev.respErr).processing = false)
    ∧ (∀ s : AutoLoop.St, s.phase = AutoLoop.Phase.capturing →
        (AutoLoop.step s AutoLoop.Ev.captureErr).cameraActive = false
        ∧ (AutoLoop.step s AutoLoop.Ev.captureErr).nextAllowedCaptureAt = s.now + 10000
        ∧ (AutoLoop.step s AutoLoop.Ev.captureErr).processing = false)
    ∧ (∀ s : AutoLoop.St, s.phase = AutoLoop.Phase.capturing →
        (AutoLoop.step s AutoLoop.Ev.geoFail).posted = s.posted
        ∧ (AutoLoop.step s AutoLoop.Ev.geoFail).nextAllowedCaptureAt = s.now + 10000
        ∧ (AutoLoop.step s AutoLoop.Ev.geoFail).cameraActive = s.cameraActive
        ∧ (AutoLoop.step s AutoLoop.Ev.geoFail).processing = false) := by
  refine ⟨?_, ?_, ?_⟩
  · intro s hph
    show (AutoLoop.respErrStep s).cameraActive = false
      ∧ (AutoLoop.respErrStep s).nextAllowedCaptureAt = s.now + 10000
      ∧ (AutoLoop.respErrStep s).processing = false
    unfold AutoLoop.respErrStep
    rw [if_pos hph]
    exact ⟨rfl, rfl, rfl⟩
  · intro s hph
    show (AutoLoop.captureErrStep s).cameraActive = false
      ∧ (AutoLoop.captureErrStep s).nextAllowedCaptureAt = s.now + 10000
      ∧ (AutoLoop.captureErrStep s).processing = false
    unfold AutoLoop.captureErrStep
    rw [if_pos hph]
    exact ⟨rfl, rfl, rfl⟩
  · intro s hph
    show (AutoLoop.geoFailStep s).posted = s.posted
      ∧ (AutoLoop.geoFailStep s).nextAllowedCaptureAt = s.now + 10000
      ∧ (AutoLoop.geoFailStep s).cameraActive = s.cameraActive
      ∧ (AutoLoop.geoFailStep s).processing = false
    unfold AutoLoop.geoFailStep
    rw [if_pos hph]
    exact ⟨rfl, rfl, rfl, rfl⟩

theorem submission_failure_recovery_wit :
    (AutoLoop.step ⟨5000, 4000, 4000, true, true, none, AutoLoop.Phase.posting,
        [4000], 1, 1, [4000]⟩ AutoLoop.Ev.respErr).cameraActive = false
    ∧ (AutoLoop.step ⟨5000, 4000, 4000, true, true, none, AutoLoop.Phase.posting,
        [4000], 1, 1, [4000]⟩ AutoLoop.Ev.respErr).nextAllowedCaptureAt = 5000 + 10000
    ∧ (AutoLoop.step ⟨5000, 4000, 4000, true, true, none, AutoLoop.Phase.posting,
        [4000], 1, 1, [4000]⟩ AutoLoop.Ev.respErr).processing = false :=
  submission_failure_recovery.1
    ⟨5000, 4000, 4000, true, true, none, AutoLoop.Phase.posting, [4000], 1, 1, [4000]⟩ rfl
